import Mathlib

/-!
Verification of the go-user-api repository's age calculation and user
service layer. The Go sources are embedded shallowly: pure functions become
Lean functions, the read of the global clock inside CalculateAge becomes an
explicit date argument, the database becomes a list of rows, and fallible
service operations return Except values.
-/

namespace GoUserApi

/-- A calendar date as Go's time package exposes one through Year(), Month()
and Day(): the month is the 1-based month number and the day the 1-based day
of the month. -/
structure Date where
  year : Int
  month : Int
  day : Int
deriving DecidableEq

/-- CalculateAge from internal/models/user.go. The Go function receives only
the date of birth and reads the evaluation date from the global clock with
time.Now(); the embedding passes the clock's reading as the explicit first
argument now, so the Go call CalculateAge(dob) at clock date c is
CalculateAge c dob here. -/
def CalculateAge (now dob : Date) : Int :=
  let age := now.year - dob.year
  if now.month < dob.month ∨ (now.month = dob.month ∧ now.day < dob.day) then
    age - 1
  else
    age

/-- Leap years of the proleptic Gregorian calendar, as Go's time.isLeap. -/
def isLeapYear (y : Int) : Bool :=
  (y % 4 == 0 && y % 100 != 0) || y % 400 == 0

/-- Length of a month, as Go's time.daysIn. -/
def daysInMonth (y m : Int) : Int :=
  if m = 2 then (if isLeapYear y then 29 else 28)
  else if m = 4 ∨ m = 6 ∨ m = 9 ∨ m = 11 then 30
  else 31

/-- The calendar dates Go's time package accepts when parsing layout
2006-01-02: month and day inside calendar bounds. -/
def validDate (d : Date) : Prop :=
  1 ≤ d.month ∧ d.month ≤ 12 ∧ 1 ≤ d.day ∧ d.day ≤ daysInMonth d.year d.month

instance (d : Date) : Decidable (validDate d) := by
  unfold validDate
  exact inferInstance

/-- Calendar order on dates: a falls on the same day as b or on an earlier
day. -/
def dateLe (a b : Date) : Prop :=
  a.year < b.year
    ∨ (a.year = b.year
        ∧ (a.month < b.month ∨ (a.month = b.month ∧ a.day ≤ b.day)))

instance (a b : Date) : Decidable (dateLe a b) := by
  unfold dateLe
  exact inferInstance

/-- Strict calendar order on dates: a falls on an earlier day than b. -/
def dateLt (a b : Date) : Prop :=
  a.year < b.year
    ∨ (a.year = b.year
        ∧ (a.month < b.month ∨ (a.month = b.month ∧ a.day < b.day)))

instance (a b : Date) : Decidable (dateLt a b) := by
  unfold dateLt
  exact inferInstance

/-- Numeric value of a decimal digit character. -/
def digitVal (c : Char) : Option Int :=
  if c.isDigit then some (Int.ofNat (c.toNat - 48)) else none

/-- The call time.Parse("2006-01-02", s) of the Go standard library as the
service layer uses it: exactly four year digits, a hyphen, two month digits,
a hyphen and two day digits, with the month in 1..12 and the day inside the
month's length; every other string is rejected with an error. -/
def parseDate (s : String) : Option Date :=
  match s.toList with
  | [y1, y2, y3, y4, h1, m1, m2, h2, d1, d2] =>
    match digitVal y1, digitVal y2, digitVal y3, digitVal y4,
        digitVal m1, digitVal m2, digitVal d1, digitVal d2 with
    | some a, some b, some c, some d, some e, some f, some g, some k =>
      if h1 = '-' ∧ h2 = '-' then
        let y := 1000 * a + 100 * b + 10 * c + d
        let mo := 10 * e + f
        let da := 10 * g + k
        if 1 ≤ mo ∧ mo ≤ 12 ∧ 1 ≤ da ∧ da ≤ daysInMonth y mo then
          some ⟨y, mo, da⟩
        else none
      else none
    | _, _, _, _, _, _, _, _ => none
  | _ => none

/-- Two-digit zero padding, as Go's Format layouts 01 and 02. -/
def pad2 (n : Int) : String :=
  if n < 10 then "0" ++ toString n else toString n

/-- Four-digit zero padding, as Go's Format layout 2006. -/
def pad4 (n : Int) : String :=
  if n < 10 then "000" ++ toString n
  else if n < 100 then "00" ++ toString n
  else if n < 1000 then "0" ++ toString n
  else toString n

/-- The call dob.Format("2006-01-02") of the service layer. -/
def formatDate (d : Date) : String :=
  pad4 d.year ++ "-" ++ pad2 d.month ++ "-" ++ pad2 d.day

namespace Db

/-- A row of the users table as db/queries/users.sql selects it: id, name,
dob, created_at and updated_at. The schema has no age column; the timestamps
are opaque integers. -/
structure User where
  id : Int
  name : String
  dob : Date
  createdAt : Int
  updatedAt : Int
deriving DecidableEq

/-- The id the SERIAL column assigns to the inserted row. -/
def nextId (store : List User) : Int :=
  (store.map (fun u => u.id)).foldl max 0 + 1

/-- CreateUser from db/queries/users.sql: INSERT (name, dob) RETURNING the
new row; ts models CURRENT_TIMESTAMP. -/
def CreateUser (store : List User) (name : String) (dob : Date) (ts : Int) :
    List User × User :=
  let u : User := ⟨nextId store, name, dob, ts, ts⟩
  (store ++ [u], u)

/-- GetUserByID from db/queries/users.sql. -/
def GetUserByID (store : List User) (id : Int) : Option User :=
  store.find? (fun u => u.id == id)

/-- ListUsers from db/queries/users.sql: ORDER BY id LIMIT $1 OFFSET $2. -/
def ListUsers (store : List User) (limit offset : Int) : List User :=
  ((store.insertionSort (fun a b => a.id ≤ b.id)).drop offset.toNat).take
    limit.toNat

/-- CountUsers from db/queries/users.sql. -/
def CountUsers (store : List User) : Int :=
  store.length

/-- UpdateUser from db/queries/users.sql: SET name, dob, updated_at WHERE id,
RETURNING the row; none models sql.ErrNoRows when no row matches. -/
def UpdateUser (store : List User) (id : Int) (name : String) (dob : Date)
    (ts : Int) : Option (List User × User) :=
  match store.find? (fun u => u.id == id) with
  | none => none
  | some u =>
    some
      (store.map (fun v =>
          if v.id == id then { v with name := name, dob := dob, updatedAt := ts }
          else v),
        { u with name := name, dob := dob, updatedAt := ts })

end Db

/-- The response body internal/models/user.go declares: Age is a pointer
marked omitempty, so none encodes an absent age field; DOB carries the
formatted date string. -/
structure UserResponse where
  id : Int
  name : String
  dob : String
  age : Option Int
deriving DecidableEq

namespace Service

/-- The reassignment of page in ListUsers, internal/service/service.go. -/
def clampPage (page : Int) : Int :=
  if page < 1 then 1 else page

/-- The reassignment of pageSize in ListUsers, internal/service/service.go. -/
def clampPageSize (pageSize : Int) : Int :=
  if pageSize < 1 ∨ pageSize > 100 then 10 else pageSize

/-- The Go conversion int32(n): truncation to 32 bits, two's complement. -/
def toInt32 (n : Int) : Int :=
  (n + 2 ^ 31) % 2 ^ 32 - 2 ^ 31

/-- The (limit, offset) pair ListUsers hands the repository after clamping:
int32(pageSize) and int32((page-1)*pageSize), internal/service/service.go. -/
def listUsersQueryArgs (page pageSize : Int) : Int × Int :=
  (toInt32 (clampPageSize pageSize),
    toInt32 ((clampPage page - 1) * clampPageSize pageSize))

/-- CreateUser from internal/service/service.go: parse the dob string,
insert, and respond without an age field. -/
def CreateUser (store : List Db.User) (name dobStr : String) (ts : Int) :
    Except String (List Db.User × UserResponse) :=
  match parseDate dobStr with
  | none => Except.error "invalid date format, use YYYY-MM-DD"
  | some dob =>
    let r := Db.CreateUser store name dob ts
    Except.ok (r.1, ⟨r.2.id, r.2.name, formatDate r.2.dob, none⟩)

/-- GetUserByID from internal/service/service.go: fetch the row and attach a
freshly computed age; clock is the date CalculateAge reads from time.Now(). -/
def GetUserByID (store : List Db.User) (id : Int) (clock : Date) :
    Except String UserResponse :=
  match Db.GetUserByID store id with
  | none => Except.error "user not found"
  | some u =>
    Except.ok ⟨u.id, u.name, formatDate u.dob, some (CalculateAge clock u.dob)⟩

/-- ListUsers from internal/service/service.go: clamp the pagination inputs,
query the store, and attach a freshly computed age to every row; the second
component is the CountUsers total. -/
def ListUsers (store : List Db.User) (page pageSize : Int) (clock : Date) :
    List UserResponse × Int :=
  let args := listUsersQueryArgs page pageSize
  ((Db.ListUsers store args.1 args.2).map (fun u =>
      ⟨u.id, u.name, formatDate u.dob, some (CalculateAge clock u.dob)⟩),
    Db.CountUsers store)

/-- UpdateUser from internal/service/service.go: parse the dob string,
update the row, and respond without an age field. -/
def UpdateUser (store : List Db.User) (id : Int) (name dobStr : String)
    (ts : Int) : Except String (List Db.User × UserResponse) :=
  match parseDate dobStr with
  | none => Except.error "invalid date format, use YYYY-MM-DD"
  | some dob =>
    match Db.UpdateUser store id name dob ts with
    | none => Except.error "user not found"
    | some r => Except.ok (r.1, ⟨r.2.id, r.2.name, formatDate r.2.dob, none⟩)

end Service

/-- The branch form of CalculateAge, definitionally equal to it. -/
theorem calculateAge_eq (now dob : Date) :
    CalculateAge now dob =
      if now.month < dob.month ∨ (now.month = dob.month ∧ now.day < dob.day)
      then now.year - dob.year - 1 else now.year - dob.year := rfl

/-- C1: CalculateAge returns now.year - dob.year, decremented by exactly one
precisely when now.month < dob.month, or now.month = dob.month and
now.day < dob.day. -/
theorem calculateAge_formula (dob now : Date) :
    CalculateAge now dob =
      now.year - dob.year -
        (if now.month < dob.month ∨ (now.month = dob.month ∧ now.day < dob.day)
          then 1 else 0) := by
  rw [calculateAge_eq]
  split_ifs <;> omega

/-- C2 counterexample: with the date of birth fixed, two different clock
readings give different results, so the Go function, which takes no
reference-date argument and reads time.Now() internally, is not
deterministic in its explicit inputs. -/
theorem calculateAge_counterexample :
    CalculateAge ⟨2024, 1, 1⟩ ⟨2000, 1, 1⟩
      ≠ CalculateAge ⟨2025, 1, 1⟩ ⟨2000, 1, 1⟩ := by
  decide

/-- C2 amended: CalculateAge reads its reference date from the global clock
rather than taking it as a second parameter, so for a fixed date of birth the
result varies with the clock; given both the clock's reading and the date of
birth, the result is uniquely determined. -/
theorem calculateAge_clock_determinism :
    (∃ dob n1 n2 : Date, CalculateAge n1 dob ≠ CalculateAge n2 dob)
      ∧ ∀ now dob : Date, ∃! r : Int, CalculateAge now dob = r := by
  constructor
  · exact ⟨⟨2000, 1, 1⟩, ⟨2024, 1, 1⟩, ⟨2025, 1, 1⟩, by decide⟩
  · intro now dob
    exact ⟨CalculateAge now dob, rfl, fun r h => h.symm⟩

/-- C3: when the date of birth falls on the same day as or an earlier day
than the reference date, the computed age is nonnegative. -/
theorem calculateAge_nonneg (dob now : Date) (h : dateLe dob now) :
    0 ≤ CalculateAge now dob := by
  unfold dateLe at h
  simp only [CalculateAge]
  split_ifs with hc <;> omega

/-- C3 witness: date of birth 2000-01-01, reference date 2024-06-01. -/
theorem calculateAge_nonneg_witness :
    0 ≤ CalculateAge ⟨2024, 6, 1⟩ ⟨2000, 1, 1⟩ :=
  calculateAge_nonneg ⟨2000, 1, 1⟩ ⟨2024, 6, 1⟩ (by decide)

/-- C6: when the reference date is the birthday itself no decrement applies:
a person born thirty years earlier on the same month and day is exactly
30. -/
theorem calculateAge_birthday_today (Y M D : Int) (h : validDate ⟨Y, M, D⟩) :
    CalculateAge ⟨Y, M, D⟩ ⟨Y - 30, M, D⟩ = 30 := by
  rw [calculateAge_eq]
  split_ifs with hc <;> dsimp only at hc ⊢ <;> omega

/-- C6 witness: birthday 1994-05-10 evaluated on 2024-05-10. -/
theorem calculateAge_birthday_today_witness :
    CalculateAge ⟨2024, 5, 10⟩ ⟨2024 - 30, 5, 10⟩ = 30 :=
  calculateAge_birthday_today 2024 5 10 (by decide)

/-- C7: crossing the birthday moves the age by exactly one: one day before
the thirtieth birthday the age is 29, one day after it is 30. -/
theorem calculateAge_birthday_boundary (Y M D : Int)
    (h : validDate ⟨Y, M, D⟩) :
    (validDate ⟨Y, M, D - 1⟩ →
        CalculateAge ⟨Y, M, D - 1⟩ ⟨Y - 30, M, D⟩ = 29)
      ∧ (validDate ⟨Y, M, D + 1⟩ →
          CalculateAge ⟨Y, M, D + 1⟩ ⟨Y - 30, M, D⟩ = 30) := by
  constructor <;> intro hv <;> rw [calculateAge_eq] <;>
    split_ifs with hc <;> dsimp only at hc ⊢ <;> omega

/-- C7 witness: birthday 1994-05-10 evaluated on 2024-05-09 and
2024-05-11. -/
theorem calculateAge_birthday_boundary_witness :
    CalculateAge ⟨2024, 5, 10 - 1⟩ ⟨2024 - 30, 5, 10⟩ = 29
      ∧ CalculateAge ⟨2024, 5, 10 + 1⟩ ⟨2024 - 30, 5, 10⟩ = 30 :=
  ⟨(calculateAge_birthday_boundary 2024 5 10 (by decide)).1 (by decide),
    (calculateAge_birthday_boundary 2024 5 10 (by decide)).2 (by decide)⟩

/-- C8: a Feb 29 date of birth against a Feb 28 reference date in a non-leap
year receives no special-casing: plain integer comparison on the (month, day)
tuples finds 28 < 29, the decrement applies, and the birthday counts as not
yet occurred. -/
theorem calculateAge_leap_day (Ydob Ynow : Int)
    (hdob : isLeapYear Ydob = true) (hnow : isLeapYear Ynow = false) :
    CalculateAge ⟨Ynow, 2, 28⟩ ⟨Ydob, 2, 29⟩ = Ynow - Ydob - 1 := by
  rw [calculateAge_eq]
  split_ifs with hc <;> dsimp only at hc ⊢ <;> omega

/-- C8 witness: born 2000-02-29, evaluated on 2023-02-28. -/
theorem calculateAge_leap_day_witness :
    CalculateAge ⟨2023, 2, 28⟩ ⟨2000, 2, 29⟩ = 2023 - 2000 - 1 :=
  calculateAge_leap_day 2000 2023 (by decide) (by decide)

/-- C9: a date of birth strictly after the reference date yields a negative
or zero value; the computation performs no validation and raises no
error. -/
theorem calculateAge_future_dob (dob now : Date) (h : dateLt now dob) :
    CalculateAge now dob ≤ 0 := by
  unfold dateLt at h
  simp only [CalculateAge]
  split_ifs with hc <;> omega

/-- C9 witness: born 2025-06-15, evaluated on 2024-01-01. -/
theorem calculateAge_future_dob_witness :
    CalculateAge ⟨2024, 1, 1⟩ ⟨2025, 6, 15⟩ ≤ 0 :=
  calculateAge_future_dob ⟨2025, 6, 15⟩ ⟨2024, 1, 1⟩ (by decide)

/-- C5: a dob string time.Parse rejects makes the service CreateUser and
UpdateUser fail with the fixed message naming the expected YYYY-MM-DD
format, before any age computation; the age computation itself is total and
has no error result. -/
theorem invalid_dob_rejected (store : List Db.User) (id : Int)
    (name dobStr : String) (ts : Int) (h : parseDate dobStr = none) :
    Service.CreateUser store name dobStr ts
        = Except.error "invalid date format, use YYYY-MM-DD"
      ∧ Service.UpdateUser store id name dobStr ts
        = Except.error "invalid date format, use YYYY-MM-DD"
      ∧ ∀ now dob : Date, ∃ a : Int, CalculateAge now dob = a := by
  refine ⟨?_, ?_, fun now dob => ⟨CalculateAge now dob, rfl⟩⟩
  · unfold Service.CreateUser
    rw [h]
  · unfold Service.UpdateUser
    rw [h]

/-- C5 witness: the string 2000/01/01 is not in YYYY-MM-DD format and both
write operations reject it with the fixed message. -/
theorem invalid_dob_rejected_witness :
    Service.CreateUser [] "ada" "2000/01/01" 0
        = Except.error "invalid date format, use YYYY-MM-DD"
      ∧ Service.UpdateUser [] 1 "ada" "2000/01/01" 0
        = Except.error "invalid date format, use YYYY-MM-DD"
      ∧ ∀ now dob : Date, ∃ a : Int, CalculateAge now dob = a :=
  invalid_dob_rejected [] 1 "ada" "2000/01/01" 0 (by decide)

/-- C4: the durable user record holds only id, name, dob and the two
timestamps; the read operations recompute the age from the stored dob on
every call, and the write operations attach no age to their responses and
write rows fully determined by id, name, dob and the timestamp. -/
theorem age_never_stored :
    (∀ (store : List Db.User) (id : Int) (clock : Date) (resp : UserResponse),
        Service.GetUserByID store id clock = Except.ok resp →
          ∃ u, Db.GetUserByID store id = some u ∧ u ∈ store
            ∧ resp = ⟨u.id, u.name, formatDate u.dob,
                some (CalculateAge clock u.dob)⟩)
      ∧ (∀ (store : List Db.User) (page pageSize : Int) (clock : Date)
            (resp : UserResponse),
          resp ∈ (Service.ListUsers store page pageSize clock).1 →
            ∃ u, u ∈ store
              ∧ resp = ⟨u.id, u.name, formatDate u.dob,
                  some (CalculateAge clock u.dob)⟩)
      ∧ (∀ (store store2 : List Db.User) (name dobStr : String) (ts : Int)
            (resp : UserResponse),
          Service.CreateUser store name dobStr ts = Except.ok (store2, resp) →
            resp.age = none
              ∧ ∃ dob, parseDate dobStr = some dob
                  ∧ store2 = store ++ [⟨Db.nextId store, name, dob, ts, ts⟩])
      ∧ (∀ (store store2 : List Db.User) (id : Int) (name dobStr : String)
            (ts : Int) (resp : UserResponse),
          Service.UpdateUser store id name dobStr ts
              = Except.ok (store2, resp) →
            resp.age = none
              ∧ ∃ dob, parseDate dobStr = some dob
                  ∧ store2 = store.map (fun v =>
                      if v.id == id
                      then { v with name := name, dob := dob, updatedAt := ts }
                      else v)) := by
  refine ⟨?_, ?_, ?_, ?_⟩
  · intro store id clock resp h
    unfold Service.GetUserByID at h
    split at h
    · exact absurd h (by simp)
    · next u heq =>
      simp only [Except.ok.injEq] at h
      refine ⟨u, heq, ?_, h.symm⟩
      unfold Db.GetUserByID at heq
      exact List.mem_of_find?_eq_some heq
  · intro store page pageSize clock resp h
    unfold Service.ListUsers at h
    simp only [List.mem_map] at h
    obtain ⟨u, hu, hresp⟩ := h
    refine ⟨u, ?_, hresp.symm⟩
    unfold Db.ListUsers at hu
    have h1 := List.mem_of_mem_take hu
    have h2 := List.mem_of_mem_drop h1
    exact (List.mem_insertionSort _).mp h2
  · intro store store2 name dobStr ts resp h
    unfold Service.CreateUser at h
    split at h
    · exact absurd h (by simp)
    · next dob heq =>
      simp only [Db.CreateUser, Except.ok.injEq, Prod.mk.injEq] at h
      obtain ⟨hstore, hresp⟩ := h
      exact ⟨by rw [← hresp], dob, heq, hstore.symm⟩
  · intro store store2 id name dobStr ts resp h
    unfold Service.UpdateUser at h
    split at h
    · exact absurd h (by simp)
    · next dob heq =>
      split at h
      · exact absurd h (by simp)
      · next r heq2 =>
        simp only [Except.ok.injEq, Prod.mk.injEq] at h
        obtain ⟨hstore, hresp⟩ := h
        unfold Db.UpdateUser at heq2
        split at heq2
        · exact absurd heq2 (by simp)
        · next u hfind =>
          simp only [Option.some.injEq] at heq2
          refine ⟨by rw [← hresp], dob, heq, ?_⟩
          rw [← hstore, ← heq2]

/-- C10 counterexample: at page 300000000 and pageSize 10 the clamped offset
is 2999999990, which overflows int32 when the service converts it, so the
store is queried with a negative offset that also differs from
(page-1)*pageSize. -/
theorem listUsers_offset_counterexample :
    (Service.listUsersQueryArgs 300000000 10).2 < 0
      ∧ (Service.listUsersQueryArgs 300000000 10).2 ≠ (300000000 - 1) * 10 := by
  decide

/-- C10 amended: a page below 1 becomes 1 and a pageSize outside [1, 100]
becomes 10, and the store receives int32(pageSize) and
int32((page-1)*pageSize): the effective limit always lies in [1, 100], and
the offset equals (page-1)*pageSize and is nonnegative whenever that product
stays below 2^31; for larger products the int32 conversion wraps and the
offset handed to the store can be negative. -/
theorem listUsers_pagination_clamped (page pageSize : Int) :
    1 ≤ (Service.listUsersQueryArgs page pageSize).1
      ∧ (Service.listUsersQueryArgs page pageSize).1 ≤ 100
      ∧ (Service.listUsersQueryArgs page pageSize).1
          = Service.clampPageSize pageSize
      ∧ ((Service.clampPage page - 1) * Service.clampPageSize pageSize
            < 2 ^ 31 →
          (Service.listUsersQueryArgs page pageSize).2
              = (Service.clampPage page - 1) * Service.clampPageSize pageSize
            ∧ 0 ≤ (Service.listUsersQueryArgs page pageSize).2) := by
  have hs : 1 ≤ Service.clampPageSize pageSize
      ∧ Service.clampPageSize pageSize ≤ 100 := by
    unfold Service.clampPageSize
    split_ifs <;> omega
  have hp : 1 ≤ Service.clampPage page := by
    unfold Service.clampPage
    split_ifs <;> omega
  have hnn : 0 ≤ (Service.clampPage page - 1) * Service.clampPageSize pageSize :=
    Int.mul_nonneg (by omega) (by omega)
  unfold Service.listUsersQueryArgs Service.toInt32
  refine ⟨by omega, by omega, by omega, fun hlt => ⟨by omega, by omega⟩⟩

end GoUserApi
